import Mathlib

/-!
Shallow embedding of the gareport funnel-analysis core:
`config.py` (pattern tables), `stage_classifier.py` (per-event funnel-stage
scoring) and `conversion_calculator.py` (conversion-rate aggregation).
Confidences and rates are modelled as rationals; pandas DataFrames are
modelled as lists of records, pandas groupby as (sorted-key, filter)
grouping, and an uncaught pandas exception as `Except.error`.
-/

namespace GAReport

/-- Funnel stage labels (`funnel_stage` column values). -/
inductive Stage where
  | AWARENESS
  | INTEREST
  | CONSIDERATION
  | CONVERSION
  | UNKNOWN
deriving DecidableEq, Repr

/-- One raw GA4 event row. `name` is the pandas row-index label used by the
classifier's `row.name` comparisons; `engagementTimeMsec = none` models a
missing/NaN optional field. -/
structure Event where
  name : Nat
  userPseudoId : String
  eventName : String
  pagePath : String
  sessionSource : String
  sessionMedium : String
  deviceCategory : String
  eventTimestamp : Nat
  engagementTimeMsec : Option Nat
deriving DecidableEq, Repr

/-- The configuration fields consumed by the core (`config.py`,
`_get_default_config` / `_set_attributes`). Pattern tables are ordered
association lists, matching Python dict insertion order. -/
structure Config where
  min_engagement_time : ℚ
  page_categories : List (String × List String)
  traffic_groups : List (String × List String)

/-- The default configuration values from `Config._get_default_config`. -/
def default_config : Config :=
  { min_engagement_time := 15
    page_categories :=
      [ ("homepage", ["/"])
      , ("authentication", ["/login", "/id-login", "/provider-join"])
      , ("content", ["/posts/*", "/skill-guide/*", "/p-posts/*"])
      , ("service_info", ["/fee-information", "/providers", "/service-plan/*"])
      , ("core_features", ["/order/*", "/products/*", "/distribution/*"])
      , ("support", ["/p-posts/qna", "/skill-guide/*"]) ]
    traffic_groups :=
      [ ("paid_search", ["google/cpc", "naver/cpc", "naver/cpc2"])
      , ("organic_search", ["google/organic", "naver/organic", "daum/organic"])
      , ("social_media", ["blog/sns", "instagram/*", "youtube/*"])
      , ("referral", ["*referral", "blog/*"])
      , ("direct", ["(direct)/(none)", "(not set)/(not set)"])
      , ("email", ["stibee/*"]) ] }

/-- Substring occurrence over character lists: `pat` occurs as a prefix of
some suffix. -/
def contains_sub_chars (pat : List Char) : List Char → Bool
  | [] => pat.isPrefixOf ([] : List Char)
  | c :: rest => pat.isPrefixOf (c :: rest) || contains_sub_chars pat rest

/-- Python's substring containment `pat in s` (for nonempty `pat`). -/
def contains_sub (s pat : String) : Bool :=
  contains_sub_chars pat.data s.data

/-- Python's `s.startswith(pre)`. -/
def str_starts_with (s pre : String) : Bool := pre.data.isPrefixOf s.data

/-- Python's `s.endswith(suf)`. -/
def str_ends_with (s suf : String) : Bool := suf.data.isSuffixOf s.data

/-- Python's `s[:-1]`: drop the final character. -/
def str_drop_last (s : String) : String := ⟨s.data.dropLast⟩

/-- One pattern test from `Config.get_page_category` / `get_traffic_group`:
a pattern ending in `*` is a prefix match on the pattern minus the `*`,
otherwise an exact match. -/
def matches_pattern (pattern path : String) : Bool :=
  if str_ends_with pattern "*" then str_starts_with path (str_drop_last pattern)
  else path == pattern

/-- The shared category-lookup loop of `get_page_category` and
`get_traffic_group`: first category (in table order) with a matching
pattern wins; no match yields "other". -/
def find_category : List (String × List String) → String → String
  | [], _ => "other"
  | (category, patterns) :: rest, path =>
    if patterns.any (fun p => matches_pattern p path) then category
    else find_category rest path

/-- `Config.get_page_category`. -/
def get_page_category (cfg : Config) (page_path : String) : String :=
  find_category cfg.page_categories page_path

/-- `Config.get_traffic_group`: matches `source/medium` against the
traffic-group table. -/
def get_traffic_group (cfg : Config) (source medium : String) : String :=
  find_category cfg.traffic_groups (source ++ "/" ++ medium)

/-- `FunnelStageClassifier._awareness_conditions`. -/
def awareness_conditions (event : Event) (context : List Event) : ℚ :=
  let confidence : ℚ :=
    (if event.eventName = "session_start" then (0.8 : ℚ) else 0)
    + (if event.eventName = "first_visit" then (0.9 : ℚ) else 0)
    + (if event.sessionSource ≠ "(direct)" then (0.3 : ℚ) else 0)
    + (if event.pagePath = "/" ∨ event.pagePath = "/skill-guide/one-click" then (0.4 : ℚ) else 0)
    + (match context.head? with
       | some first_event => if event.name = first_event.name then (0.3 : ℚ) else 0
       | none => 0)
  min confidence 1

/-- `FunnelStageClassifier._interest_conditions`. -/
def interest_conditions (cfg : Config) (event : Event) (context : List Event) : ℚ :=
  let confidence : ℚ :=
    (if event.eventName = "user_engagement" ∨ event.eventName = "visit_blog" then (0.7 : ℚ) else 0)
    + (if contains_sub event.pagePath "/posts/" ∨ contains_sub event.pagePath "/skill-guide/"
       then (0.5 : ℚ) else 0)
    + (match event.engagementTimeMsec with
       | some msec => if (msec : ℚ) / 1000 > cfg.min_engagement_time then (0.4 : ℚ) else 0
       | none => 0)
    + (if event.eventName = "visit_blog" then (0.6 : ℚ) else 0)
    + (if context.any (fun row =>
          decide (row.name < event.name)
          && (row.eventName == "session_start" || row.eventName == "first_visit"))
       then (0.2 : ℚ) else 0)
  min confidence 1

/-- `FunnelStageClassifier._consideration_conditions`. -/
def consideration_conditions (event : Event) (context : List Event) : ℚ :=
  let confidence : ℚ :=
    (if contains_sub event.pagePath "/fee-information"
        ∨ contains_sub event.pagePath "/providers"
        ∨ contains_sub event.pagePath "/service-plan"
     then (0.8 : ℚ) else 0)
    + (if 3 ≤ (context.map (fun row => row.pagePath)).dedup.length then (0.3 : ℚ) else 0)
    + (if 5 ≤ (context.map (fun row => row.pagePath)).dedup.length then (0.2 : ℚ) else 0)
    + (if 3 ≤ (context.filter (fun row => decide (row.name ≤ event.name))).length
       then (0.2 : ℚ) else 0)
    + (if context.any (fun row =>
          decide (row.name < event.name)
          && (row.eventName == "user_engagement" || row.eventName == "visit_blog"))
       then (0.3 : ℚ) else 0)
    + (if event.sessionSource = "(direct)" then (0.2 : ℚ) else 0)
  min confidence 1

/-- `FunnelStageClassifier._conversion_conditions`. -/
def conversion_conditions (event : Event) (_context : List Event) : ℚ :=
  let confidence : ℚ :=
    if event.eventName = "회원가입2" then 1
    else if event.pagePath = "/provider-join" then
      (if event.eventName = "page_view" then (0.3 : ℚ)
       else if event.eventName = "user_engagement" then (0.5 : ℚ)
       else 0)
    else 0
  min confidence 1

/-- `FunnelStageClassifier._initialize_stage_rules`: the stage-to-scoring
table, in dict insertion order. -/
def stage_rules (cfg : Config) : List (Stage × (Event → List Event → ℚ)) :=
  [ (Stage.AWARENESS, awareness_conditions)
  , (Stage.INTEREST, interest_conditions cfg)
  , (Stage.CONSIDERATION, consideration_conditions)
  , (Stage.CONVERSION, conversion_conditions) ]

/-- `FunnelStageClassifier._classify_single_event`: strict-maximum selection
over the stage rules, starting from (UNKNOWN, 0.0). -/
def classify_single_event (cfg : Config) (event_row : Event) (user_context : List Event) :
    Stage × ℚ :=
  (stage_rules cfg).foldl
    (fun best rule =>
      let confidence := rule.2 event_row user_context
      if confidence > best.2 then (rule.1, confidence) else best)
    (Stage.UNKNOWN, 0)

/-- An Event augmented by the classifier with the funnel stage, the stage
confidence and the page-category annotation. -/
structure ClassifiedEvent where
  event : Event
  funnel_stage : Stage
  stage_confidence : ℚ
  page_category : String
deriving DecidableEq, Repr

/-- The per-user timestamp sort of `_classify_user_journey`
(`sort_values('eventTimestamp')`). -/
def sort_by_timestamp (l : List Event) : List Event :=
  List.insertionSort (fun a b => a.eventTimestamp ≤ b.eventTimestamp) l

/-- `FunnelStageClassifier._classify_user_journey`: sort one user's events by
timestamp and classify each event against the full sorted journey as
context. Page categories come from `classify_user_events`, which annotates
every row via `config.get_page_category` before classifying. -/
def classify_user_journey (cfg : Config) (user_events : List Event) : List ClassifiedEvent :=
  let sorted := sort_by_timestamp user_events
  sorted.map (fun e =>
    { event := e
      funnel_stage := (classify_single_event cfg e sorted).1
      stage_confidence := (classify_single_event cfg e sorted).2
      page_category := get_page_category cfg e.pagePath })

/-- Lexicographic code-point comparison on character lists (Python's
string `<`). -/
def chars_lt : List Char → List Char → Bool
  | [], _ :: _ => true
  | _, [] => false
  | a :: as, b :: bs =>
    if a.toNat < b.toNat then true
    else if b.toNat < a.toNat then false
    else chars_lt as bs

/-- Python's string `<`. -/
def str_lt (a b : String) : Bool := chars_lt a.data b.data

/-- Ascending string sort, as pandas groupby uses for its group keys. -/
def sort_strings (l : List String) : List String :=
  List.insertionSort (fun a b => str_lt a b = true ∨ a = b) l

/-- The distinct user ids of an event relation, in pandas groupby key order. -/
def user_ids (events_df : List Event) : List String :=
  sort_strings (events_df.map (fun e => e.userPseudoId)).dedup

/-- `FunnelStageClassifier.classify_user_events`: empty input is returned
as-is; otherwise events are partitioned by user and each user's journey is
classified, concatenating the per-user results. -/
def classify_user_events (cfg : Config) (events_df : List Event) : List ClassifiedEvent :=
  if events_df.isEmpty then []
  else
    ((user_ids events_df).map (fun u =>
      classify_user_journey cfg
        (events_df.filter (fun e => decide (e.userPseudoId = u))))).flatten

/-! ## Conversion calculator (`conversion_calculator.py`) -/

/-- Shorthand for a classified event's user id. -/
def ce_user (ce : ClassifiedEvent) : String := ce.event.userPseudoId

/-- The distinct user ids of a classified relation, in groupby key order. -/
def user_ids_c (classified_df : List ClassifiedEvent) : List String :=
  sort_strings (classified_df.map ce_user).dedup

/-- One row of `ConversionCalculator._get_user_progression`. -/
structure UserProgression where
  user_id : String
  reached_awareness : Bool
  reached_interest : Bool
  reached_consideration : Bool
  reached_conversion : Bool
  total_events : Nat
  unique_pages : Nat
  first_source : String
  first_medium : String
deriving DecidableEq, Repr

/-- One user's progression row: reached flags, event/page counts and
first-seen source/medium (first row in DataFrame order for that user). -/
def user_progression_row (classified_df : List ClassifiedEvent) (u : String) : UserProgression :=
  let g := classified_df.filter (fun ce => decide (ce_user ce = u))
  { user_id := u
    reached_awareness := g.any (fun ce => decide (ce.funnel_stage = Stage.AWARENESS))
    reached_interest := g.any (fun ce => decide (ce.funnel_stage = Stage.INTEREST))
    reached_consideration := g.any (fun ce => decide (ce.funnel_stage = Stage.CONSIDERATION))
    reached_conversion := g.any (fun ce => decide (ce.funnel_stage = Stage.CONVERSION))
    total_events := g.length
    unique_pages := (g.map (fun ce => ce.event.pagePath)).dedup.length
    first_source := (g.head?.map (fun ce => ce.event.sessionSource)).getD ""
    first_medium := (g.head?.map (fun ce => ce.event.sessionMedium)).getD "" }

/-- `ConversionCalculator._get_user_progression`. -/
def get_user_progression (classified_df : List ClassifiedEvent) : List UserProgression :=
  (user_ids_c classified_df).map (user_progression_row classified_df)

/-- The dictionary built by `calculate_stage_conversions` on nonempty input. -/
structure StageConversions where
  total_users : Nat
  awareness_count : Nat
  interest_count : Nat
  consideration_count : Nat
  conversion_count : Nat
  awareness_rate : ℚ
  interest_rate : ℚ
  consideration_rate : ℚ
  conversion_rate : ℚ
  awareness_to_interest : ℚ
  interest_to_consideration : ℚ
  consideration_to_conversion : ℚ
  overall_conversion : ℚ
deriving DecidableEq, Repr

/-- `calculate_stage_conversions` returns an `error`-keyed dictionary (a
normal return value, not an exception) on empty input, and the computed
statistics otherwise. -/
inductive StageConversionsResult where
  | errorDict (msg : String)
  | stats (s : StageConversions)
deriving DecidableEq, Repr

/-- `ConversionCalculator.calculate_stage_conversions`. The
`conversion_events` argument is accepted and unused, as in the source. -/
def calculate_stage_conversions (classified_df : List ClassifiedEvent)
    (_conversion_events : List Event) : StageConversionsResult :=
  if classified_df.isEmpty then .errorDict "분류된 데이터가 없습니다"
  else
    let prog := get_user_progression classified_df
    let total_users := prog.length
    let ac := prog.countP (fun p => p.reached_awareness)
    let ic := prog.countP (fun p => p.reached_interest)
    let cc := prog.countP (fun p => p.reached_consideration)
    let vc := prog.countP (fun p => p.reached_conversion)
    .stats
      { total_users := total_users
        awareness_count := ac
        interest_count := ic
        consideration_count := cc
        conversion_count := vc
        awareness_rate := (ac : ℚ) / (total_users : ℚ) * 100
        interest_rate := (ic : ℚ) / (total_users : ℚ) * 100
        consideration_rate := (cc : ℚ) / (total_users : ℚ) * 100
        conversion_rate := (vc : ℚ) / (total_users : ℚ) * 100
        awareness_to_interest := if 0 < ac then (ic : ℚ) / (ac : ℚ) * 100 else 0
        interest_to_consideration := if 0 < ic then (cc : ℚ) / (ic : ℚ) * 100 else 0
        consideration_to_conversion := if 0 < cc then (vc : ℚ) / (cc : ℚ) * 100 else 0
        overall_conversion := (vc : ℚ) / (total_users : ℚ) * 100 }

/-- `ConversionCalculator._assess_traffic_quality`. -/
def assess_traffic_quality (conversion_rate : ℚ) (volume : Nat) : String :=
  if 20 ≤ conversion_rate ∧ 50 ≤ volume then "Premium"
  else if 10 ≤ conversion_rate ∧ 100 ≤ volume then "High"
  else if 5 ≤ conversion_rate ∧ 200 ≤ volume then "Medium"
  else if 2 ≤ conversion_rate then "Low"
  else "Poor"

/-- One row of the per-user source mapping in `calculate_source_conversions`
(groupby user, first source/medium, converted flag). -/
structure UserSourceRow where
  user : String
  source : String
  medium : String
  converted : Bool
deriving DecidableEq, Repr

/-- The per-user (first source, first medium, converted) mapping of
`calculate_source_conversions`. -/
def user_sources (classified_df : List ClassifiedEvent) : List UserSourceRow :=
  (user_ids_c classified_df).map (fun u =>
    let g := classified_df.filter (fun ce => decide (ce_user ce = u))
    { user := u
      source := (g.head?.map (fun ce => ce.event.sessionSource)).getD ""
      medium := (g.head?.map (fun ce => ce.event.sessionMedium)).getD ""
      converted := g.any (fun ce => decide (ce.funnel_stage = Stage.CONVERSION)) })

/-- The (source, medium) group keys, in pandas lexicographic key order. -/
def source_keys (rows : List UserSourceRow) : List (String × String) :=
  List.insertionSort
    (fun a b : String × String =>
      str_lt a.1 b.1 = true ∨ (a.1 = b.1 ∧ (str_lt a.2 b.2 = true ∨ a.2 = b.2)))
    (rows.map (fun r => (r.source, r.medium))).dedup

/-- One output row of `calculate_source_conversions`. -/
structure SourceConv where
  source : String
  medium : String
  source_medium : String
  traffic_group : String
  total_users : Nat
  conversions : Nat
  conversion_rate : ℚ
  traffic_quality : String
deriving DecidableEq, Repr

/-- The per-(source, medium) aggregation step of
`calculate_source_conversions`. -/
def source_group_row (cfg : Config) (rows : List UserSourceRow) (key : String × String) :
    SourceConv :=
  let g := rows.filter (fun r => decide ((r.source, r.medium) = key))
  let total_users := g.length
  let conversions := g.countP (fun r => r.converted)
  let rate := (conversions : ℚ) / (total_users : ℚ) * 100
  { source := key.1
    medium := key.2
    source_medium := key.1 ++ " / " ++ key.2
    traffic_group := get_traffic_group cfg key.1 key.2
    total_users := total_users
    conversions := conversions
    conversion_rate := rate
    traffic_quality := assess_traffic_quality rate total_users }

/-- `sort_values('conversion_rate', ascending=False)` for source rows. -/
def sort_source_by_rate (l : List SourceConv) : List SourceConv :=
  List.insertionSort (fun a b => b.conversion_rate ≤ a.conversion_rate) l

/-- `ConversionCalculator.calculate_source_conversions`. On empty input the
aggregation list is empty, `pd.DataFrame([])` has no `conversion_rate`
column, and the final `sort_values` raises `KeyError` — modelled as
`Except.error`. -/
def calculate_source_conversions (cfg : Config) (classified_df : List ClassifiedEvent) :
    Except String (List SourceConv) :=
  let rows := user_sources classified_df
  let recs := (source_keys rows).map (source_group_row cfg rows)
  if recs.isEmpty then .error "KeyError: conversion_rate"
  else .ok (sort_source_by_rate recs)

/-- `ConversionCalculator._classify_content_type`. -/
def classify_content_type (page_path : String) : String :=
  if contains_sub page_path "/posts/" then "Blog Post"
  else if contains_sub page_path "/skill-guide/" then
    (if contains_sub page_path "one-click" then "Product Guide"
     else if contains_sub page_path "market-management" then "Management Guide"
     else "General Guide")
  else "Other Content"

/-- `ConversionCalculator._assess_content_effectiveness`. -/
def assess_content_effectiveness (conversion_rate : ℚ) (volume : Nat) : String :=
  if 30 ≤ conversion_rate ∧ 20 ≤ volume then "Excellent"
  else if 15 ≤ conversion_rate ∧ 50 ≤ volume then "Good"
  else if 8 ≤ conversion_rate ∧ 100 ≤ volume then "Average"
  else if 3 ≤ conversion_rate then "Below Average"
  else "Poor"

/-- One row of the (user, page) interaction-count relation of
`calculate_content_conversions`. -/
structure ContentRow where
  user : String
  page : String
  interactions : Nat
deriving DecidableEq, Repr

/-- `groupby(['userPseudoId', 'pagePath']).size()` over content events. -/
def content_rows (content_events : List ClassifiedEvent) : List ContentRow :=
  let keys := List.insertionSort
    (fun a b : String × String =>
      str_lt a.1 b.1 = true ∨ (a.1 = b.1 ∧ (str_lt a.2 b.2 = true ∨ a.2 = b.2)))
    (content_events.map (fun ce => (ce_user ce, ce.event.pagePath))).dedup
  keys.map (fun k =>
    { user := k.1
      page := k.2
      interactions :=
        (content_events.filter
          (fun ce => decide ((ce_user ce, ce.event.pagePath) = k))).length })

/-- One output row of `calculate_content_conversions`. -/
structure ContentConv where
  page_path : String
  content_type : String
  total_users : Nat
  conversions : Nat
  conversion_rate : ℚ
  avg_interactions : ℚ
  content_effectiveness : String
deriving DecidableEq, Repr

/-- `sort_values('conversion_rate', ascending=False)` for content rows. -/
def sort_content_by_rate (l : List ContentConv) : List ContentConv :=
  List.insertionSort (fun a b => b.conversion_rate ≤ a.conversion_rate) l

/-- `ConversionCalculator.calculate_content_conversions`. Empty content
selection returns an empty result before any rate computation. -/
def calculate_content_conversions (classified_df : List ClassifiedEvent) : List ContentConv :=
  let content_events := classified_df.filter (fun ce =>
    contains_sub ce.event.pagePath "/posts/" || contains_sub ce.event.pagePath "/skill-guide/")
  if content_events.isEmpty then []
  else
    let user_content := content_rows content_events
    let converted_users :=
      (classified_df.filter (fun ce => decide (ce.funnel_stage = Stage.CONVERSION))).map ce_user
    let pages := sort_strings (user_content.map (fun r => r.page)).dedup
    sort_content_by_rate (pages.map (fun p =>
      let pg := user_content.filter (fun r => decide (r.page = p))
      let users := (pg.map (fun r => r.user)).dedup
      let total_users := users.length
      let conversions := users.countP (fun u => converted_users.contains u)
      let rate := if 0 < total_users then (conversions : ℚ) / (total_users : ℚ) * 100 else 0
      { page_path := p
        content_type := classify_content_type p
        total_users := total_users
        conversions := conversions
        conversion_rate := rate
        avg_interactions := (pg.map (fun r => (r.interactions : ℚ))).sum / (pg.length : ℚ)
        content_effectiveness := assess_content_effectiveness rate total_users }))

/-- Pandas `Series.mode().iloc[0]` for strings: the most frequent value,
ties broken by the smallest value (mode sorts ascending), with a fallback
for an empty series. -/
def modal_string (l : List String) (fallback : String) : String :=
  match sort_strings l.dedup with
  | [] => fallback
  | c :: cs => cs.foldl (fun best v => if l.count best < l.count v then v else best) c

/-- Pandas `Series.mode().iloc[0]` for naturals. -/
def modal_nat (l : List Nat) (fallback : Nat) : Nat :=
  match List.insertionSort (fun a b : Nat => a ≤ b) l.dedup with
  | [] => fallback
  | c :: cs => cs.foldl (fun best v => if l.count best < l.count v then v else best) c

/-- One output row of `calculate_device_conversions`. -/
structure DeviceConv where
  device_category : String
  total_users : Nat
  conversions : Nat
  conversion_rate : ℚ
  user_share : ℚ
deriving DecidableEq, Repr

/-- The per-user (modal device, converted) mapping of
`calculate_device_conversions`. -/
def user_devices (classified_df : List ClassifiedEvent) : List (String × Bool) :=
  (user_ids_c classified_df).map (fun u =>
    let g := classified_df.filter (fun ce => decide (ce_user ce = u))
    ( modal_string (g.map (fun ce => ce.event.deviceCategory)) "unknown"
    , g.any (fun ce => decide (ce.funnel_stage = Stage.CONVERSION)) ))

/-- `sort_values('conversion_rate', ascending=False)` for device rows. -/
def sort_device_by_rate (l : List DeviceConv) : List DeviceConv :=
  List.insertionSort (fun a b => b.conversion_rate ≤ a.conversion_rate) l

/-- `ConversionCalculator.calculate_device_conversions`.
`has_device_column` models whether `deviceCategory` is in the DataFrame's
schema (the column-presence check); a missing column returns an empty
result. With the column present but zero rows, the final `sort_values` on
the empty aggregation raises `KeyError`, modelled as `Except.error`. -/
def calculate_device_conversions (has_device_column : Bool)
    (classified_df : List ClassifiedEvent) : Except String (List DeviceConv) :=
  if !has_device_column then .ok []
  else
    let ud := user_devices classified_df
    let devices := sort_strings (ud.map (fun r => r.1)).dedup
    let recs := devices.map (fun d =>
      let g := ud.filter (fun r => decide (r.1 = d))
      { device_category := d
        total_users := g.length
        conversions := g.countP (fun r => r.2)
        conversion_rate := (g.countP (fun r => r.2) : ℚ) / (g.length : ℚ) * 100
        user_share := (g.length : ℚ) / (ud.length : ℚ) * 100 })
    if recs.isEmpty then .error "KeyError: conversion_rate"
    else .ok (sort_device_by_rate recs)

/-- Hour-of-day of a timestamp (timestamps modelled as epoch seconds). -/
def hour_of (ts : Nat) : Nat := ts / 3600 % 24

/-- Day names in calendar order, as used by the daily loop. -/
def day_order : List String :=
  ["Monday", "Tuesday", "Wednesday", "Thursday", "Friday", "Saturday", "Sunday"]

/-- Day-of-week name of an epoch-second timestamp (1970-01-01 is Thursday). -/
def day_of (ts : Nat) : String := day_order.getD ((ts / 86400 + 3) % 7) "Monday"

/-- One row of the per-user time mapping in
`calculate_time_based_conversions`. -/
structure UserTimeRow where
  hour : Nat
  day : String
  converted : Bool
deriving DecidableEq, Repr

/-- The per-user (modal hour, modal day, converted) mapping of
`calculate_time_based_conversions`, with the source's fallbacks. -/
def user_times (classified_df : List ClassifiedEvent) : List UserTimeRow :=
  (user_ids_c classified_df).map (fun u =>
    let g := classified_df.filter (fun ce => decide (ce_user ce = u))
    { hour := modal_nat (g.map (fun ce => hour_of ce.event.eventTimestamp)) 12
      day := modal_string (g.map (fun ce => day_of ce.event.eventTimestamp)) "Monday"
      converted := g.any (fun ce => decide (ce.funnel_stage = Stage.CONVERSION)) })

/-- One hourly bucket of `calculate_time_based_conversions`. -/
structure HourlyConv where
  hour : Nat
  total_users : Nat
  conversions : Nat
  conversion_rate : ℚ
deriving DecidableEq, Repr

/-- One daily bucket of `calculate_time_based_conversions`. -/
structure DailyConv where
  day_of_week : String
  total_users : Nat
  conversions : Nat
  conversion_rate : ℚ
deriving DecidableEq, Repr

/-- The dictionary returned by `calculate_time_based_conversions`. -/
structure TimeAnalysis where
  hourly_conversions : List HourlyConv
  daily_conversions : List DailyConv
deriving DecidableEq, Repr

/-- `ConversionCalculator.calculate_time_based_conversions`: only buckets
with at least one user are reported. -/
def calculate_time_based_conversions (classified_df : List ClassifiedEvent) : TimeAnalysis :=
  let ut := user_times classified_df
  { hourly_conversions := (List.range 24).filterMap (fun h =>
      let g := ut.filter (fun r => decide (r.hour = h))
      if g.isEmpty then none
      else some
        { hour := h
          total_users := g.length
          conversions := g.countP (fun r => r.converted)
          conversion_rate := (g.countP (fun r => r.converted) : ℚ) / (g.length : ℚ) * 100 })
    daily_conversions := day_order.filterMap (fun d =>
      let g := ut.filter (fun r => decide (r.day = d))
      if g.isEmpty then none
      else some
        { day_of_week := d
          total_users := g.length
          conversions := g.countP (fun r => r.converted)
          conversion_rate := (g.countP (fun r => r.converted) : ℚ) / (g.length : ℚ) * 100 }) }

/-! ## Proof infrastructure and concrete inputs -/

/-- One strict-max update step of `_classify_single_event`'s loop. -/
def select_step (confidence : ℚ) (stage : Stage) (best : Stage × ℚ) : Stage × ℚ :=
  if confidence > best.2 then (stage, confidence) else best

/-- The classifier's selection loop unrolled over the four stage scores, in
rule-table order. -/
def select4 (a i c v : ℚ) : Stage × ℚ :=
  select_step v Stage.CONVERSION
    (select_step c Stage.CONSIDERATION
      (select_step i Stage.INTEREST
        (select_step a Stage.AWARENESS (Stage.UNKNOWN, 0))))

/-- Shorthand constructor for a concrete event row. -/
def mkE (n : Nat) (u en pp ss sm : String) (ts : Nat) : Event :=
  { name := n, userPseudoId := u, eventName := en, pagePath := pp,
    sessionSource := ss, sessionMedium := sm, deviceCategory := "desktop",
    eventTimestamp := ts, engagementTimeMsec := none }

/-- Shorthand constructor for a concrete classified event row. -/
def mkCE (n : Nat) (u : String) (st : Stage) : ClassifiedEvent :=
  { event := mkE n u "user_engagement" "/posts/1" "google" "cpc" 0
    funnel_stage := st, stage_confidence := 1, page_category := "content" }

/-- A conversion-named event on the landing page from an external source,
the user's first event: AWARENESS also scores a clamped 1.0 on it. -/
def c1_event : Event := mkE 0 "u" "회원가입2" "/" "google" "cpc" 0

/-- A conversion-named event on which no other stage reaches 1.0. -/
def c1w_event : Event := mkE 1 "u" "회원가입2" "/x" "(direct)" "(none)" 5

/-- The pattern table of the C2 scenario: `{"content": ["/posts/*"]}`. -/
def c2_config : Config :=
  { min_engagement_time := 15
    page_categories := [("content", ["/posts/*"])]
    traffic_groups := [] }

/-- A `first_visit` event from a direct source, used to exercise the
AWARENESS selection branch. -/
def c4_event : Event := mkE 0 "u" "first_visit" "/x" "(direct)" "(none)" 0

/-- A small two-user event relation used to exercise pipeline invariants. -/
def c5_events : List Event :=
  [ mkE 0 "u1" "session_start" "/" "google" "cpc" 7
  , mkE 1 "u1" "user_engagement" "/posts/9" "google" "cpc" 3
  , mkE 2 "u2" "page_view" "/providers" "(direct)" "(none)" 1 ]

/-- The first classified event produced from `c5_events` (user u1's
engagement event, classified INTEREST with clamped confidence 1). -/
def c5_ce : ClassifiedEvent :=
  { event := mkE 1 "u1" "user_engagement" "/posts/9" "google" "cpc" 3
    funnel_stage := Stage.INTEREST
    stage_confidence := 1
    page_category := "content" }

/-- The first classified event produced from `c8_events` (the later-indexed
but earlier-timestamped session_start). -/
def c8_ce : ClassifiedEvent :=
  { event := mkE 1 "A" "session_start" "/" "google" "cpc" 2
    funnel_stage := Stage.AWARENESS
    stage_confidence := 1
    page_category := "homepage" }

/-- The two-user scenario of the spec: user A converts, user B only opens a
session. -/
def c6_events : List Event :=
  [ mkE 0 "A" "session_start" "/" "google" "cpc" 0
  , mkE 1 "A" "page_view" "/posts/5" "google" "cpc" 1
  , mkE 2 "A" "회원가입2" "/provider-join" "google" "cpc" 2
  , mkE 3 "B" "session_start" "/" "google" "cpc" 0 ]

/-- A classified relation with two users reaching INTEREST but only one
reaching AWARENESS: the awareness→interest step rate is 200%. -/
def c7_df : List ClassifiedEvent :=
  [mkCE 0 "u1" .INTEREST, mkCE 1 "u2" .INTEREST, mkCE 2 "u3" .AWARENESS]

/-- The `awareness_to_interest` step rate of a stage-conversion result. -/
def step_ai : StageConversionsResult → ℚ
  | .errorDict _ => 0
  | .stats s => s.awareness_to_interest

/-- The stage statistics computed on `c7_df`. -/
def c7_stats : StageConversions :=
  { total_users := 3
    awareness_count := 1, interest_count := 2, consideration_count := 0, conversion_count := 0
    awareness_rate := 100 / 3, interest_rate := 200 / 3
    consideration_rate := 0, conversion_rate := 0
    awareness_to_interest := 200, interest_to_consideration := 0
    consideration_to_conversion := 0
    overall_conversion := 0 }

/-- The single source aggregation row computed on `c7_df`. -/
def c7_source_row : SourceConv :=
  { source := "google", medium := "cpc", source_medium := "google / cpc"
    traffic_group := "paid_search", total_users := 3, conversions := 0
    conversion_rate := 0, traffic_quality := "Poor" }

/-- A one-user relation with out-of-order timestamps, used to exercise the
within-user timestamp sort. -/
def c8_events : List Event :=
  [ mkE 0 "A" "page_view" "/providers" "google" "cpc" 9
  , mkE 1 "A" "session_start" "/" "google" "cpc" 2 ]

/-- A one-event relation used for the determinism witness. -/
def c9_events : List Event := [mkE 0 "u" "session_start" "/" "google" "cpc" 0]

/-- A one-event relation used for the UNKNOWN-iff-zero witness. -/
def c10_events : List Event := [mkE 0 "u" "scroll" "/x" "google" "cpc" 0]

/-- The classified event produced from `c10_events` (AWARENESS via the
non-direct-source and first-event signals). -/
def c10_ce : ClassifiedEvent :=
  { event := mkE 0 "u" "scroll" "/x" "google" "cpc" 0
    funnel_stage := Stage.AWARENESS
    stage_confidence := 0.6
    page_category := "other" }

/-- Decidable equality for `Except` results, so concrete raise/return
outcomes can be settled by evaluation. -/
instance {ε α : Type} [DecidableEq ε] [DecidableEq α] : DecidableEq (Except ε α) := fun x y =>
  match x, y with
  | .error e₁, .error e₂ =>
    if h : e₁ = e₂ then .isTrue (by rw [h]) else .isFalse (by simp [h])
  | .error _, .ok _ => .isFalse (by simp)
  | .ok _, .error _ => .isFalse (by simp)
  | .ok a₁, .ok a₂ =>
    if h : a₁ = a₂ then .isTrue (by rw [h]) else .isFalse (by simp [h])

instance : IsTotal Event (fun a b => a.eventTimestamp ≤ b.eventTimestamp) :=
  ⟨fun a b => Nat.le_total a.eventTimestamp b.eventTimestamp⟩

instance : IsTrans Event (fun a b => a.eventTimestamp ≤ b.eventTimestamp) :=
  ⟨fun _ _ _ hab hbc => Nat.le_trans hab hbc⟩

/-! ## Score bounds for the four stage-condition functions -/

theorem ite_zero_nonneg {b : Prop} [Decidable b] {q : ℚ} (hq : 0 ≤ q) :
    0 ≤ if b then q else 0 := by
  split_ifs
  · exact hq
  · exact le_refl 0

theorem awareness_conditions_nonneg (e : Event) (ctx : List Event) :
    0 ≤ awareness_conditions e ctx := by
  unfold awareness_conditions
  refine le_min ?_ zero_le_one
  have h5 : (0:ℚ) ≤ (match ctx.head? with
      | some first_event => if e.name = first_event.name then (0.3 : ℚ) else 0
      | none => 0) := by
    cases ctx.head? with
    | none => exact le_refl 0
    | some fe => exact ite_zero_nonneg (by norm_num)
  refine add_nonneg (add_nonneg (add_nonneg (add_nonneg ?_ ?_) ?_) ?_) h5 <;>
    exact ite_zero_nonneg (by norm_num)

theorem awareness_conditions_le_one (e : Event) (ctx : List Event) :
    awareness_conditions e ctx ≤ 1 := by
  unfold awareness_conditions
  exact min_le_right _ _

theorem interest_conditions_nonneg (cfg : Config) (e : Event) (ctx : List Event) :
    0 ≤ interest_conditions cfg e ctx := by
  unfold interest_conditions
  refine le_min ?_ zero_le_one
  have h3 : (0:ℚ) ≤ (match e.engagementTimeMsec with
      | some msec => if (msec : ℚ) / 1000 > cfg.min_engagement_time then (0.4 : ℚ) else 0
      | none => 0) := by
    cases e.engagementTimeMsec with
    | none => exact le_refl 0
    | some msec => exact ite_zero_nonneg (by norm_num)
  refine add_nonneg (add_nonneg (add_nonneg (add_nonneg ?_ ?_) h3) ?_) ?_ <;>
    exact ite_zero_nonneg (by norm_num)

theorem interest_conditions_le_one (cfg : Config) (e : Event) (ctx : List Event) :
    interest_conditions cfg e ctx ≤ 1 := by
  unfold interest_conditions
  exact min_le_right _ _

theorem consideration_conditions_nonneg (e : Event) (ctx : List Event) :
    0 ≤ consideration_conditions e ctx := by
  unfold consideration_conditions
  refine le_min ?_ zero_le_one
  refine add_nonneg (add_nonneg (add_nonneg (add_nonneg (add_nonneg ?_ ?_) ?_) ?_) ?_) ?_ <;>
    exact ite_zero_nonneg (by norm_num)

theorem consideration_conditions_le_one (e : Event) (ctx : List Event) :
    consideration_conditions e ctx ≤ 1 := by
  unfold consideration_conditions
  exact min_le_right _ _

theorem conversion_conditions_nonneg (e : Event) (ctx : List Event) :
    0 ≤ conversion_conditions e ctx := by
  unfold conversion_conditions
  refine le_min ?_ zero_le_one
  split_ifs <;> norm_num

theorem conversion_conditions_le_one (e : Event) (ctx : List Event) :
    conversion_conditions e ctx ≤ 1 := by
  unfold conversion_conditions
  exact min_le_right _ _

/-! ## The strict-maximum selection loop -/

theorem select_step_gt {confidence : ℚ} {best : Stage × ℚ} (stage : Stage)
    (h : best.2 < confidence) : select_step confidence stage best = (stage, confidence) :=
  if_pos h

theorem select_step_le {confidence : ℚ} {best : Stage × ℚ} (stage : Stage)
    (h : confidence ≤ best.2) : select_step confidence stage best = best :=
  if_neg (not_lt.mpr h)

theorem select_step_snd (confidence : ℚ) (stage : Stage) (best : Stage × ℚ) :
    (select_step confidence stage best).2 = max best.2 confidence := by
  unfold select_step
  split_ifs with h
  · exact (max_eq_right h.le).symm
  · exact (max_eq_left (not_lt.mp h)).symm

theorem classify_eq_select4 (cfg : Config) (e : Event) (ctx : List Event) :
    classify_single_event cfg e ctx =
      select4 (awareness_conditions e ctx) (interest_conditions cfg e ctx)
        (consideration_conditions e ctx) (conversion_conditions e ctx) := rfl

theorem select4_snd (a i c v : ℚ) :
    (select4 a i c v).2 = max (max (max (max 0 a) i) c) v := by
  unfold select4
  rw [select_step_snd, select_step_snd, select_step_snd, select_step_snd]

theorem select4_zero : select4 0 0 0 0 = (Stage.UNKNOWN, 0) := by
  unfold select4
  rw [select_step_le Stage.AWARENESS (le_refl 0), select_step_le Stage.INTEREST (le_refl 0),
    select_step_le Stage.CONSIDERATION (le_refl 0)]
  exact select_step_le Stage.CONVERSION (le_refl 0)

theorem select4_awareness {a i c v : ℚ} (h0 : 0 < a) (h1 : i ≤ a) (h2 : c ≤ a) (h3 : v ≤ a) :
    select4 a i c v = (Stage.AWARENESS, a) := by
  unfold select4
  rw [select_step_gt Stage.AWARENESS (show ((Stage.UNKNOWN, (0:ℚ))).2 < a from h0)]
  rw [select_step_le Stage.INTEREST (show i ≤ ((Stage.AWARENESS, a)).2 from h1)]
  rw [select_step_le Stage.CONSIDERATION (show c ≤ ((Stage.AWARENESS, a)).2 from h2)]
  exact select_step_le Stage.CONVERSION (show v ≤ ((Stage.AWARENESS, a)).2 from h3)

theorem select4_interest {a i c v : ℚ} (ha : 0 ≤ a) (h1 : a < i) (h2 : c ≤ i) (h3 : v ≤ i) :
    select4 a i c v = (Stage.INTEREST, i) := by
  unfold select4
  have hgt : (select_step a Stage.AWARENESS (Stage.UNKNOWN, 0)).2 < i := by
    rw [select_step_snd]
    exact max_lt (lt_of_le_of_lt ha h1) h1
  rw [select_step_gt Stage.INTEREST hgt]
  rw [select_step_le Stage.CONSIDERATION (show c ≤ ((Stage.INTEREST, i)).2 from h2)]
  exact select_step_le Stage.CONVERSION (show v ≤ ((Stage.INTEREST, i)).2 from h3)

theorem select4_consideration {a i c v : ℚ} (ha : 0 ≤ a) (hi : 0 ≤ i)
    (h1 : a < c) (h2 : i < c) (h3 : v ≤ c) :
    select4 a i c v = (Stage.CONSIDERATION, c) := by
  unfold select4
  have hgt :
      (select_step i Stage.INTEREST (select_step a Stage.AWARENESS (Stage.UNKNOWN, 0))).2 < c := by
    rw [select_step_snd, select_step_snd]
    exact max_lt (max_lt (lt_of_le_of_lt ha h1) h1) h2
  rw [select_step_gt Stage.CONSIDERATION hgt]
  exact select_step_le Stage.CONVERSION (show v ≤ ((Stage.CONSIDERATION, c)).2 from h3)

theorem select4_conversion {a i c v : ℚ} (ha : 0 ≤ a) (hi : 0 ≤ i) (hc : 0 ≤ c)
    (h1 : a < v) (h2 : i < v) (h3 : c < v) :
    select4 a i c v = (Stage.CONVERSION, v) := by
  unfold select4
  have hgt :
      (select_step c Stage.CONSIDERATION
        (select_step i Stage.INTEREST (select_step a Stage.AWARENESS (Stage.UNKNOWN, 0)))).2
        < v := by
    rw [select_step_snd, select_step_snd, select_step_snd]
    exact max_lt (max_lt (max_lt (lt_of_le_of_lt ha h1) h1) h2) h3
  exact select_step_gt Stage.CONVERSION hgt

theorem select_step_fst_unknown {confidence : ℚ} {stage : Stage} {best : Stage × ℚ}
    (hst : stage ≠ Stage.UNKNOWN) (h : (select_step confidence stage best).1 = Stage.UNKNOWN) :
    best.1 = Stage.UNKNOWN ∧ confidence ≤ best.2 := by
  unfold select_step at h
  split_ifs at h with hgt
  · exact absurd h hst
  · exact ⟨h, not_lt.mp hgt⟩

theorem select4_unknown_iff {a i c v : ℚ} (ha : 0 ≤ a) (hi : 0 ≤ i) (hc : 0 ≤ c) (hv : 0 ≤ v) :
    (select4 a i c v).1 = Stage.UNKNOWN ↔ (select4 a i c v).2 = 0 := by
  constructor
  · intro h
    unfold select4 at h
    obtain ⟨h3, hv'⟩ := select_step_fst_unknown (by decide) h
    obtain ⟨h2, hc'⟩ := select_step_fst_unknown (by decide) h3
    obtain ⟨h1, hi'⟩ := select_step_fst_unknown (by decide) h2
    obtain ⟨-, ha'⟩ := select_step_fst_unknown (by decide) h1
    have ha0 : a = 0 := le_antisymm ha' ha
    subst ha0
    have hi0 : i = 0 := by
      refine le_antisymm ?_ hi
      rw [select_step_snd] at hi'
      simpa using hi'
    subst hi0
    have hc0 : c = 0 := by
      refine le_antisymm ?_ hc
      rw [select_step_snd, select_step_snd] at hc'
      simpa using hc'
    subst hc0
    have hv0 : v = 0 := by
      refine le_antisymm ?_ hv
      rw [select_step_snd, select_step_snd, select_step_snd] at hv'
      simpa using hv'
    subst hv0
    rw [select4_zero]
  · intro h
    have ha0 : a = 0 := by
      refine le_antisymm ?_ ha
      rw [select4_snd] at h
      rw [← h]
      exact le_trans (le_max_right 0 a)
        (le_trans (le_max_left _ i) (le_trans (le_max_left _ c) (le_max_left _ v)))
    have hi0 : i = 0 := by
      refine le_antisymm ?_ hi
      rw [select4_snd] at h
      rw [← h]
      exact le_trans (le_max_right _ i) (le_trans (le_max_left _ c) (le_max_left _ v))
    have hc0 : c = 0 := by
      refine le_antisymm ?_ hc
      rw [select4_snd] at h
      rw [← h]
      exact le_trans (le_max_right _ c) (le_max_left _ v)
    have hv0 : v = 0 := by
      refine le_antisymm ?_ hv
      rw [select4_snd] at h
      rw [← h]
      exact le_max_right _ v
    subst ha0; subst hi0; subst hc0; subst hv0
    rw [select4_zero]

/-! ## Decomposition of the classification pipeline -/

theorem mem_classify_user_events {cfg : Config} {evs : List Event} {ce : ClassifiedEvent}
    (h : ce ∈ classify_user_events cfg evs) :
    ∃ u e, e ∈ sort_by_timestamp (evs.filter (fun x => decide (x.userPseudoId = u))) ∧
      ce = { event := e
             funnel_stage :=
               (classify_single_event cfg e
                 (sort_by_timestamp (evs.filter (fun x => decide (x.userPseudoId = u))))).1
             stage_confidence :=
               (classify_single_event cfg e
                 (sort_by_timestamp (evs.filter (fun x => decide (x.userPseudoId = u))))).2
             page_category := get_page_category cfg e.pagePath } := by
  unfold classify_user_events at h
  split_ifs at h with hemp
  · simp at h
  · rw [List.mem_flatten] at h
    obtain ⟨l, hl, hml⟩ := h
    rw [List.mem_map] at hl
    obtain ⟨u, _, rfl⟩ := hl
    simp only [classify_user_journey, List.mem_map] at hml
    obtain ⟨e, he, rfl⟩ := hml
    exact ⟨u, e, he, rfl⟩

/-! ## Claims -/

/-- C4: for every event and user context, the classifier assigns the stage
with the strictly highest confidence among the four stage scores; if all
four scores are 0 it assigns UNKNOWN with confidence 0; and on an exact tie
the earlier-evaluated stage wins, with evaluation order AWARENESS,
INTEREST, CONSIDERATION, CONVERSION. -/
theorem c4_highest_confidence_selection (cfg : Config) (e : Event) (ctx : List Event) :
    (awareness_conditions e ctx = 0 → interest_conditions cfg e ctx = 0 →
     consideration_conditions e ctx = 0 → conversion_conditions e ctx = 0 →
     classify_single_event cfg e ctx = (Stage.UNKNOWN, 0))
    ∧ (0 < awareness_conditions e ctx →
       interest_conditions cfg e ctx ≤ awareness_conditions e ctx →
       consideration_conditions e ctx ≤ awareness_conditions e ctx →
       conversion_conditions e ctx ≤ awareness_conditions e ctx →
       classify_single_event cfg e ctx = (Stage.AWARENESS, awareness_conditions e ctx))
    ∧ (awareness_conditions e ctx < interest_conditions cfg e ctx →
       consideration_conditions e ctx ≤ interest_conditions cfg e ctx →
       conversion_conditions e ctx ≤ interest_conditions cfg e ctx →
       classify_single_event cfg e ctx = (Stage.INTEREST, interest_conditions cfg e ctx))
    ∧ (awareness_conditions e ctx < consideration_conditions e ctx →
       interest_conditions cfg e ctx < consideration_conditions e ctx →
       conversion_conditions e ctx ≤ consideration_conditions e ctx →
       classify_single_event cfg e ctx = (Stage.CONSIDERATION, consideration_conditions e ctx))
    ∧ (awareness_conditions e ctx < conversion_conditions e ctx →
       interest_conditions cfg e ctx < conversion_conditions e ctx →
       consideration_conditions e ctx < conversion_conditions e ctx →
       classify_single_event cfg e ctx = (Stage.CONVERSION, conversion_conditions e ctx)) := by
  refine ⟨?_, ?_, ?_, ?_, ?_⟩
  · intro h1 h2 h3 h4
    rw [classify_eq_select4, h1, h2, h3, h4]
    exact select4_zero
  · intro h0 h1 h2 h3
    rw [classify_eq_select4]
    exact select4_awareness h0 h1 h2 h3
  · intro h1 h2 h3
    rw [classify_eq_select4]
    exact select4_interest (awareness_conditions_nonneg e ctx) h1 h2 h3
  · intro h1 h2 h3
    rw [classify_eq_select4]
    exact select4_consideration (awareness_conditions_nonneg e ctx)
      (interest_conditions_nonneg cfg e ctx) h1 h2 h3
  · intro h1 h2 h3
    rw [classify_eq_select4]
    exact select4_conversion (awareness_conditions_nonneg e ctx)
      (interest_conditions_nonneg cfg e ctx) (consideration_conditions_nonneg e ctx) h1 h2 h3

/-- Witness for C4 at concrete inputs: a lone `first_visit` event is taken
by the AWARENESS branch, and a conversion-named event with all other scores
below 1 is taken by the CONVERSION branch. -/
theorem c4_highest_confidence_selection_witness :
    classify_single_event default_config c4_event [c4_event] =
      (Stage.AWARENESS, awareness_conditions c4_event [c4_event])
    ∧ classify_single_event default_config c1w_event [c1w_event] =
      (Stage.CONVERSION, conversion_conditions c1w_event [c1w_event]) :=
  ⟨(c4_highest_confidence_selection default_config c4_event [c4_event]).2.1
      (by decide!) (by decide!) (by decide!) (by decide!),
   (c4_highest_confidence_selection default_config c1w_event [c1w_event]).2.2.2.2
      (by decide!) (by decide!) (by decide!)⟩

/-- C5: every classified event in the pipeline output carries a funnel
stage in the closed five-label set and a confidence in [0, 1]; moreover no
stage's aggregated score ever exceeds 1.0, each scoring function being
clamped at 1. -/
theorem c5_stage_coverage :
    (∀ cfg evs ce, ce ∈ classify_user_events cfg evs →
      (ce.funnel_stage = Stage.AWARENESS ∨ ce.funnel_stage = Stage.INTEREST ∨
       ce.funnel_stage = Stage.CONSIDERATION ∨ ce.funnel_stage = Stage.CONVERSION ∨
       ce.funnel_stage = Stage.UNKNOWN)
      ∧ 0 ≤ ce.stage_confidence ∧ ce.stage_confidence ≤ 1)
    ∧ (∀ cfg e ctx,
        awareness_conditions e ctx ≤ 1 ∧ interest_conditions cfg e ctx ≤ 1 ∧
        consideration_conditions e ctx ≤ 1 ∧ conversion_conditions e ctx ≤ 1) := by
  constructor
  · intro cfg evs ce h
    obtain ⟨u, e, he, rfl⟩ := mem_classify_user_events h
    refine ⟨?_, ?_, ?_⟩
    · generalize (classify_single_event cfg e _).1 = st
      cases st <;> simp
    · show 0 ≤ (classify_single_event cfg e _).2
      rw [classify_eq_select4, select4_snd]
      exact le_trans (le_max_left (0:ℚ) _)
        (le_trans (le_max_left _ _) (le_trans (le_max_left _ _) (le_max_left _ _)))
    · show (classify_single_event cfg e _).2 ≤ 1
      rw [classify_eq_select4, select4_snd]
      exact max_le
        (max_le
          (max_le (max_le zero_le_one (awareness_conditions_le_one _ _))
            (interest_conditions_le_one _ _ _))
          (consideration_conditions_le_one _ _))
        (conversion_conditions_le_one _ _)
  · intro cfg e ctx
    exact ⟨awareness_conditions_le_one e ctx, interest_conditions_le_one cfg e ctx,
      consideration_conditions_le_one e ctx, conversion_conditions_le_one e ctx⟩

/-- Witness for C5 at a concrete pipeline output element. -/
theorem c5_stage_coverage_witness :
    (c5_ce.funnel_stage = Stage.AWARENESS ∨ c5_ce.funnel_stage = Stage.INTEREST ∨
     c5_ce.funnel_stage = Stage.CONSIDERATION ∨ c5_ce.funnel_stage = Stage.CONVERSION ∨
     c5_ce.funnel_stage = Stage.UNKNOWN)
    ∧ 0 ≤ c5_ce.stage_confidence ∧ c5_ce.stage_confidence ≤ 1 :=
  c5_stage_coverage.1 default_config c5_events c5_ce (by decide!)

/-- C10: a pipeline output event has funnel_stage UNKNOWN exactly when its
stage_confidence is 0. -/
theorem c10_unknown_iff_zero_confidence :
    ∀ cfg evs ce, ce ∈ classify_user_events cfg evs →
      (ce.funnel_stage = Stage.UNKNOWN ↔ ce.stage_confidence = 0) := by
  intro cfg evs ce h
  obtain ⟨u, e, he, rfl⟩ := mem_classify_user_events h
  show (classify_single_event cfg e _).1 = Stage.UNKNOWN ↔ (classify_single_event cfg e _).2 = 0
  rw [classify_eq_select4]
  exact select4_unknown_iff (awareness_conditions_nonneg _ _)
    (interest_conditions_nonneg _ _ _) (consideration_conditions_nonneg _ _)
    (conversion_conditions_nonneg _ _)

/-- Witness for C10 at a concrete pipeline output element. -/
theorem c10_unknown_iff_zero_confidence_witness :
    c10_ce.funnel_stage = Stage.UNKNOWN ↔ c10_ce.stage_confidence = 0 :=
  c10_unknown_iff_zero_confidence default_config c10_events c10_ce (by decide!)

/-- C1 counterexample: the conversion-named event `c1_event` (source
"google", landing page "/", the user's first event) also scores a clamped
1.0 for AWARENESS, and the strict-maximum loop keeps the earlier-evaluated
AWARENESS, so the classifier does not assign CONVERSION. -/
theorem c1_conversion_counterexample :
    (classify_user_events default_config [c1_event]).map
      (fun ce => (ce.funnel_stage, ce.stage_confidence)) = [(Stage.AWARENESS, 1)]
    ∧ Stage.AWARENESS ≠ Stage.CONVERSION := by
  refine ⟨by decide!, by decide⟩

/-- C1 amended: an event named exactly `회원가입2` always receives
stage_confidence exactly 1.0, and is classified CONVERSION provided no
earlier-evaluated stage (AWARENESS, INTEREST, CONSIDERATION) also reaches a
score of 1.0 on that event; on such a tie the earlier stage wins. -/
theorem c1_conversion_amended (cfg : Config) (e : Event) (ctx : List Event)
    (hname : e.eventName = "회원가입2") :
    (classify_single_event cfg e ctx).2 = 1 ∧
    (awareness_conditions e ctx < 1 → interest_conditions cfg e ctx < 1 →
     consideration_conditions e ctx < 1 →
     (classify_single_event cfg e ctx).1 = Stage.CONVERSION) := by
  have hv : conversion_conditions e ctx = 1 := by
    simp only [conversion_conditions]
    rw [if_pos hname]
    exact min_self 1
  constructor
  · rw [classify_eq_select4, select4_snd, hv]
    rw [max_eq_right]
    exact max_le
      (max_le (max_le zero_le_one (awareness_conditions_le_one e ctx))
        (interest_conditions_le_one cfg e ctx))
      (consideration_conditions_le_one e ctx)
  · intro h1 h2 h3
    rw [classify_eq_select4, hv,
      select4_conversion (awareness_conditions_nonneg e ctx)
        (interest_conditions_nonneg cfg e ctx) (consideration_conditions_nonneg e ctx)
        h1 h2 h3]

/-- Witness for the amended C1 at a concrete conversion event on which no
other stage reaches 1.0. -/
theorem c1_conversion_amended_witness :
    (classify_single_event default_config c1w_event [c1w_event]).2 = 1 ∧
    (classify_single_event default_config c1w_event [c1w_event]).1 = Stage.CONVERSION := by
  have h := c1_conversion_amended default_config c1w_event [c1w_event] (by decide)
  exact ⟨h.1, h.2 (by decide!) (by decide!) (by decide!)⟩

/-- C2 counterexample: with pattern table `[("content", ["/posts/*"])]` the
path "/posts" does not match — the pattern strips only the `*`, leaving the
prefix "/posts/", which "/posts" does not start with — so the category is
"other", not "content" as claimed. -/
theorem c2_wildcard_counterexample :
    get_page_category c2_config "/posts" = "other" ∧ ("other" : String) ≠ "content" := by
  refine ⟨by decide, by decide⟩

/-- C2 amended: with pattern table `[("content", ["/posts/*"])]` the path
"/posts/123" maps to "content" but "/posts" (which lacks the trailing
separator of the stripped prefix "/posts/") maps to "other", as does
"/other"; in general a pattern ending in '*' matches any path starting with
the pattern minus the '*', otherwise matching is exact equality, the first
matching pattern in table iteration order wins, and no match yields
"other". -/
theorem c2_wildcard_matching_amended :
    get_page_category c2_config "/posts/123" = "content"
    ∧ get_page_category c2_config "/posts" = "other"
    ∧ get_page_category c2_config "/other" = "other"
    ∧ (∀ path : String, ∀ pre : List (String × List String), ∀ category : String,
        ∀ patterns : List String, ∀ post : List (String × List String),
        (∀ cp ∈ pre, ∀ p ∈ cp.2, matches_pattern p path = false) →
        (∃ p ∈ patterns, matches_pattern p path = true) →
        find_category (pre ++ (category, patterns) :: post) path = category)
    ∧ (∀ path : String, ∀ table : List (String × List String),
        (∀ cp ∈ table, ∀ p ∈ cp.2, matches_pattern p path = false) →
        find_category table path = "other") := by
  refine ⟨by decide, by decide, by decide, ?_, ?_⟩
  · intro path pre
    induction pre with
    | nil =>
      intro category patterns post _ hex
      have hany : (patterns.any fun p => matches_pattern p path) = true :=
        List.any_eq_true.mpr hex
      simp [find_category, hany]
    | cons cp rest ih =>
      intro category patterns post hpre hex
      obtain ⟨cname, cpats⟩ := cp
      have hany : (cpats.any fun p => matches_pattern p path) = false := by
        rw [List.any_eq_false]
        intro p hp
        simp [hpre (cname, cpats) (List.mem_cons_self _ _) p hp]
      simp only [List.cons_append, find_category, hany]
      rw [if_neg (by simp)]
      exact ih category patterns post
        (fun cp' hcp' => hpre cp' (List.mem_cons_of_mem _ hcp')) hex
  · intro path table htable
    induction table with
    | nil => rfl
    | cons cp rest ih =>
      obtain ⟨cname, cpats⟩ := cp
      have hany : (cpats.any fun p => matches_pattern p path) = false := by
        rw [List.any_eq_false]
        intro p hp
        simp [htable (cname, cpats) (List.mem_cons_self _ _) p hp]
      simp only [find_category, hany]
      rw [if_neg (by simp)]
      exact ih (fun cp' hcp' => htable cp' (List.mem_cons_of_mem _ hcp'))

/-- Witness for the amended C2's general first-match-wins and no-match
clauses at concrete tables. -/
theorem c2_wildcard_matching_amended_witness :
    find_category ([("x", ["/a"])] ++ ("content", ["/posts/*"]) :: []) "/posts/9" = "content"
    ∧ find_category [("x", ["/a"])] "/posts/9" = "other" :=
  ⟨c2_wildcard_matching_amended.2.2.2.1 "/posts/9" [("x", ["/a"])] "content" ["/posts/*"] []
      (by decide) (by decide),
   c2_wildcard_matching_amended.2.2.2.2 "/posts/9" [("x", ["/a"])] (by decide)⟩

/-- C3: on an empty classified relation, the stage aggregation returns its
error-keyed dictionary and the content and time aggregations return empty
results, but the source aggregation (and the device aggregation when the
device column is present) raises `KeyError: conversion_rate` from
`sort_values` on the empty aggregation frame — contradicting the claim
that no aggregation operation raises on empty input. -/
theorem c3_empty_input_behavior :
    calculate_stage_conversions [] [] = .errorDict "분류된 데이터가 없습니다"
    ∧ calculate_source_conversions default_config [] = .error "KeyError: conversion_rate"
    ∧ calculate_content_conversions [] = []
    ∧ calculate_device_conversions true [] = .error "KeyError: conversion_rate"
    ∧ calculate_device_conversions false [] = .ok []
    ∧ calculate_time_based_conversions [] =
        { hourly_conversions := [], daily_conversions := [] } := by
  refine ⟨by decide!, by decide!, by decide!, by decide!, by decide!, by decide!⟩

/-- C6: on the spec's two-user scenario, user A's events classify as
AWARENESS (1), INTEREST (0.7), CONVERSION (1) in timestamp order and user
B's lone session_start as AWARENESS (1); the stage funnel aggregate reports
reached-counts AWARENESS=2, INTEREST=1, CONSIDERATION=0, CONVERSION=1 and
overall conversion rate 50. -/
theorem c6_two_user_scenario :
    (classify_user_events default_config c6_events).map
      (fun ce => (ce.event.userPseudoId, ce.funnel_stage, ce.stage_confidence)) =
      [("A", Stage.AWARENESS, 1), ("A", Stage.INTEREST, 0.7), ("A", Stage.CONVERSION, 1),
       ("B", Stage.AWARENESS, 1)]
    ∧ calculate_stage_conversions (classify_user_events default_config c6_events) [] =
      .stats { total_users := 2, awareness_count := 2, interest_count := 1,
               consideration_count := 0, conversion_count := 1,
               awareness_rate := 100, interest_rate := 50, consideration_rate := 0,
               conversion_rate := 50, awareness_to_interest := 50,
               interest_to_consideration := 0, consideration_to_conversion := 0,
               overall_conversion := 50 } := by
  refine ⟨by decide!, by decide!⟩

/-- C9: classification is deterministic — two runs on equal event relations
with the same configuration produce identical stage and confidence
assignments (the pipeline is a pure function of its input). -/
theorem c9_deterministic_classification (cfg : Config) (evs₁ evs₂ : List Event)
    (h : evs₁ = evs₂) :
    (classify_user_events cfg evs₁).map (fun ce => (ce.funnel_stage, ce.stage_confidence)) =
      (classify_user_events cfg evs₂).map (fun ce => (ce.funnel_stage, ce.stage_confidence)) := by
  rw [h]

/-- Witness for C9 at a concrete relation. -/
theorem c9_deterministic_classification_witness :
    (classify_user_events default_config c9_events).map
      (fun ce => (ce.funnel_stage, ce.stage_confidence)) =
      (classify_user_events default_config c9_events).map
        (fun ce => (ce.funnel_stage, ce.stage_confidence)) :=
  c9_deterministic_classification default_config c9_events c9_events rfl

/-! ## Rate-bound helpers for the calculator -/

theorem rate_bounds {c t : Nat} (hct : c ≤ t) (ht : 0 < t) :
    0 ≤ (c : ℚ) / (t : ℚ) * 100 ∧ (c : ℚ) / (t : ℚ) * 100 ≤ 100 := by
  have ht' : (0:ℚ) < (t:ℚ) := by exact_mod_cast ht
  constructor
  · positivity
  · have hdiv : (c:ℚ) / (t:ℚ) ≤ 1 := (div_le_one ht').mpr (by exact_mod_cast hct)
    have := mul_le_mul_of_nonneg_right hdiv (by norm_num : (0:ℚ) ≤ 100)
    simpa using this

theorem rate_nonneg (c t : Nat) : 0 ≤ (c : ℚ) / (t : ℚ) * 100 := by positivity

theorem length_filter_pos {α : Type} (l : List α) (p : α → Bool) (a : α)
    (ha : a ∈ l) (hpa : p a = true) : 0 < (l.filter p).length :=
  List.length_pos.mpr (List.ne_nil_of_mem (List.mem_filter.mpr ⟨ha, hpa⟩))

theorem user_ids_c_pos {df : List ClassifiedEvent} (h : ¬ df.isEmpty = true) :
    0 < (user_ids_c df).length := by
  have hne : df ≠ [] := by
    intro hnil
    exact h (by simp [hnil])
  obtain ⟨ce, hce⟩ := List.exists_mem_of_ne_nil df hne
  have hmem : ce_user ce ∈ user_ids_c df := by
    unfold user_ids_c sort_strings
    rw [List.mem_insertionSort]
    exact List.mem_dedup.mpr (List.mem_map_of_mem _ hce)
  exact List.length_pos.mpr (List.ne_nil_of_mem hmem)

/-- C7 counterexample: the step conversion rates are not bounded by 100 —
on `c7_df` (two users reaching INTEREST, one reaching AWARENESS) the
awareness→interest step rate is 200. -/
theorem c7_rate_bounds_counterexample :
    step_ai (calculate_stage_conversions c7_df []) = 200
    ∧ ¬ step_ai (calculate_stage_conversions c7_df []) ≤ 100 := by
  refine ⟨by decide!, by decide!⟩

/-- C7 amended: every conversion rate computed by the calculator — the four
stage reach rates, the overall rate, and the per-source, per-content,
per-device and per-time-bucket rates — lies in [0, 100], and every
zero-denominator step rate is exactly 0; the three step conversion rates
are nonnegative and 0 on a zero denominator but are not bounded by 100
(funnel membership is non-monotonic, so a later stage can have more users
than an earlier one). -/
theorem c7_rate_bounds_amended :
    (∀ df cev s, calculate_stage_conversions df cev = .stats s →
      (0 ≤ s.awareness_rate ∧ s.awareness_rate ≤ 100)
      ∧ (0 ≤ s.interest_rate ∧ s.interest_rate ≤ 100)
      ∧ (0 ≤ s.consideration_rate ∧ s.consideration_rate ≤ 100)
      ∧ (0 ≤ s.conversion_rate ∧ s.conversion_rate ≤ 100)
      ∧ (0 ≤ s.overall_conversion ∧ s.overall_conversion ≤ 100)
      ∧ (0 ≤ s.awareness_to_interest ∧ 0 ≤ s.interest_to_consideration ∧
         0 ≤ s.consideration_to_conversion)
      ∧ (s.awareness_count = 0 → s.awareness_to_interest = 0)
      ∧ (s.interest_count = 0 → s.interest_to_consideration = 0)
      ∧ (s.consideration_count = 0 → s.consideration_to_conversion = 0))
    ∧ (∀ cfg df l r, calculate_source_conversions cfg df = .ok l → r ∈ l →
        0 ≤ r.conversion_rate ∧ r.conversion_rate ≤ 100)
    ∧ (∀ df r, r ∈ calculate_content_conversions df →
        0 ≤ r.conversion_rate ∧ r.conversion_rate ≤ 100)
    ∧ (∀ b df l r, calculate_device_conversions b df = .ok l → r ∈ l →
        0 ≤ r.conversion_rate ∧ r.conversion_rate ≤ 100)
    ∧ (∀ df r, r ∈ (calculate_time_based_conversions df).hourly_conversions →
        0 ≤ r.conversion_rate ∧ r.conversion_rate ≤ 100)
    ∧ (∀ df r, r ∈ (calculate_time_based_conversions df).daily_conversions →
        0 ≤ r.conversion_rate ∧ r.conversion_rate ≤ 100) := by
  refine ⟨?_, ?_, ?_, ?_, ?_, ?_⟩
  · -- stage funnel aggregate
    intro df cev s h
    unfold calculate_stage_conversions at h
    split_ifs at h with hemp
    dsimp only at h
    injection h with h
    subst h
    have htotal : 0 < (get_user_progression df).length := by
      unfold get_user_progression
      rw [List.length_map]
      exact user_ids_c_pos hemp
    refine ⟨?_, ?_, ?_, ?_, ?_, ⟨?_, ?_, ?_⟩, ?_, ?_, ?_⟩
    · exact rate_bounds (List.countP_le_length _) htotal
    · exact rate_bounds (List.countP_le_length _) htotal
    · exact rate_bounds (List.countP_le_length _) htotal
    · exact rate_bounds (List.countP_le_length _) htotal
    · exact rate_bounds (List.countP_le_length _) htotal
    · dsimp only
      split_ifs
      · exact rate_nonneg _ _
      · exact le_refl 0
    · dsimp only
      split_ifs
      · exact rate_nonneg _ _
      · exact le_refl 0
    · dsimp only
      split_ifs
      · exact rate_nonneg _ _
      · exact le_refl 0
    · intro h0
      dsimp only at h0 ⊢
      rw [h0]
      simp
    · intro h0
      dsimp only at h0 ⊢
      rw [h0]
      simp
    · intro h0
      dsimp only at h0 ⊢
      rw [h0]
      simp
  · -- source aggregate
    intro cfg df l r h hr
    unfold calculate_source_conversions at h
    dsimp only at h
    split_ifs at h with hemp
    injection h with h
    subst h
    unfold sort_source_by_rate at hr
    rw [List.mem_insertionSort, List.mem_map] at hr
    obtain ⟨key, hkey, rfl⟩ := hr
    unfold source_keys at hkey
    rw [List.mem_insertionSort, List.mem_dedup, List.mem_map] at hkey
    obtain ⟨row, hrow, hkeq⟩ := hkey
    unfold source_group_row
    dsimp only
    refine rate_bounds (List.countP_le_length _) ?_
    exact length_filter_pos _ _ row hrow (decide_eq_true hkeq)
  · -- content aggregate
    intro df r hr
    unfold calculate_content_conversions at hr
    dsimp only at hr
    split_ifs at hr with hemp
    · simp at hr
    · unfold sort_content_by_rate at hr
      rw [List.mem_insertionSort, List.mem_map] at hr
      obtain ⟨p, hp, rfl⟩ := hr
      dsimp only
      split_ifs with hpos
      · exact rate_bounds (List.countP_le_length _) hpos
      · exact ⟨le_refl 0, by norm_num⟩
  · -- device aggregate
    intro b df l r h hr
    unfold calculate_device_conversions at h
    split_ifs at h with hcol
    · injection h with h
      subst h
      simp at hr
    · dsimp only at h
      split_ifs at h with hempty
      injection h with h
      subst h
      unfold sort_device_by_rate at hr
      rw [List.mem_insertionSort, List.mem_map] at hr
      obtain ⟨d, hd, rfl⟩ := hr
      unfold sort_strings at hd
      rw [List.mem_insertionSort, List.mem_dedup, List.mem_map] at hd
      obtain ⟨row, hrow, hrowd⟩ := hd
      dsimp only
      refine rate_bounds (List.countP_le_length _) ?_
      exact length_filter_pos _ _ row hrow (decide_eq_true hrowd)
  · -- hourly time aggregate
    intro df r hr
    unfold calculate_time_based_conversions at hr
    rw [List.mem_filterMap] at hr
    obtain ⟨hh, -, hf⟩ := hr
    dsimp only at hf
    split_ifs at hf with hempty
    injection hf with hf
    subst hf
    dsimp only
    refine rate_bounds (List.countP_le_length _) ?_
    refine List.length_pos.mpr ?_
    intro hnil
    exact hempty (by simp [hnil])
  · -- daily time aggregate
    intro df r hr
    unfold calculate_time_based_conversions at hr
    rw [List.mem_filterMap] at hr
    obtain ⟨dd, -, hf⟩ := hr
    dsimp only at hf
    split_ifs at hf with hempty
    injection hf with hf
    subst hf
    dsimp only
    refine rate_bounds (List.countP_le_length _) ?_
    refine List.length_pos.mpr ?_
    intro hnil
    exact hempty (by simp [hnil])

/-- Witness for the amended C7 at the concrete stage statistics and source
row computed on `c7_df`. -/
theorem c7_rate_bounds_amended_witness :
    (0 ≤ c7_stats.awareness_rate ∧ c7_stats.awareness_rate ≤ 100)
    ∧ (0 ≤ c7_source_row.conversion_rate ∧ c7_source_row.conversion_rate ≤ 100) :=
  ⟨(c7_rate_bounds_amended.1 c7_df [] c7_stats (by decide!)).1,
   c7_rate_bounds_amended.2.1 default_config c7_df [c7_source_row] c7_source_row
     (by decide!) (by decide!)⟩

/-! ## Frame preservation of the classification pipeline -/

theorem classify_user_journey_map_event (cfg : Config) (g : List Event) :
    (classify_user_journey cfg g).map (fun ce => ce.event) = sort_by_timestamp g := by
  unfold classify_user_journey
  rw [List.map_map]
  exact List.map_id' _

theorem classify_user_journey_user (cfg : Config) (evs : List Event) (u : String) :
    ∀ ce ∈ classify_user_journey cfg (evs.filter (fun e => decide (e.userPseudoId = u))),
      ce.event.userPseudoId = u := by
  intro ce hce
  simp only [classify_user_journey, List.mem_map] at hce
  obtain ⟨e, he, rfl⟩ := hce
  unfold sort_by_timestamp at he
  rw [List.mem_insertionSort, List.mem_filter] at he
  exact of_decide_eq_true he.2

theorem classify_user_journey_pairwise (cfg : Config) (g : List Event) :
    (classify_user_journey cfg g).Pairwise
      (fun x y => x.event.eventTimestamp ≤ y.event.eventTimestamp) := by
  unfold classify_user_journey
  rw [List.pairwise_map]
  unfold sort_by_timestamp
  exact List.sorted_insertionSort _ g

theorem classify_flatten_perm (cfg : Config) :
    ∀ (users : List String) (evs : List Event), users.Nodup →
      (∀ e ∈ evs, e.userPseudoId ∈ users) →
      (((users.map (fun u =>
          classify_user_journey cfg
            (evs.filter (fun e => decide (e.userPseudoId = u))))).flatten).map
        (fun ce => ce.event)).Perm evs := by
  intro users
  induction users with
  | nil =>
    intro evs _ hall
    have : evs = [] := List.eq_nil_iff_forall_not_mem.mpr (fun e he => by simpa using hall e he)
    subst this
    simp
  | cons u rest ih =>
    intro evs hnd hall
    rw [List.map_cons, List.flatten_cons, List.map_append]
    rw [classify_user_journey_map_event cfg]
    set evs' := evs.filter (fun e => !(decide (e.userPseudoId = u))) with hevs'
    have hmapeq :
        rest.map (fun u' =>
          classify_user_journey cfg (evs.filter (fun e => decide (e.userPseudoId = u')))) =
        rest.map (fun u' =>
          classify_user_journey cfg (evs'.filter (fun e => decide (e.userPseudoId = u')))) := by
      apply List.map_congr_left
      intro u' hu'
      have hne : u' ≠ u := by
        intro hequ
        subst hequ
        exact (List.nodup_cons.mp hnd).1 hu'
      congr 1
      rw [hevs', List.filter_filter]
      apply List.filter_congr
      intro e _
      by_cases h : e.userPseudoId = u'
      · simp [h, hne]
      · simp [h]
    rw [hmapeq]
    have h2 := ih evs' (List.nodup_cons.mp hnd).2 ?allmem
    case allmem =>
      intro e he
      rw [hevs', List.mem_filter] at he
      have hin := hall e he.1
      rw [List.mem_cons] at hin
      rcases hin with h | h
      · exfalso
        have hne := he.2
        simp [h] at hne
      · exact h
    refine (List.Perm.append (List.perm_insertionSort _ _) h2).trans ?_
    exact List.filter_append_perm _ evs

theorem flatten_filter_user (cfg : Config) (evs : List Event) (u : String) :
    ∀ (users : List String), users.Nodup →
      (((users.map (fun u' =>
          classify_user_journey cfg
            (evs.filter (fun e => decide (e.userPseudoId = u'))))).flatten).filter
        (fun ce => decide (ce.event.userPseudoId = u))).Pairwise
        (fun x y => x.event.eventTimestamp ≤ y.event.eventTimestamp) := by
  intro users
  induction users with
  | nil =>
    intro _
    simp
  | cons u' rest ih =>
    intro hnd
    rw [List.map_cons, List.flatten_cons, List.filter_append]
    by_cases hu : u' = u
    · subst hu
      have hself :
          (classify_user_journey cfg
            (evs.filter (fun e => decide (e.userPseudoId = u')))).filter
            (fun ce => decide (ce.event.userPseudoId = u')) =
          classify_user_journey cfg (evs.filter (fun e => decide (e.userPseudoId = u'))) := by
        apply List.filter_eq_self.mpr
        intro ce hce
        exact decide_eq_true (classify_user_journey_user cfg evs u' ce hce)
      have hrest :
          ((rest.map (fun v =>
            classify_user_journey cfg
              (evs.filter (fun e => decide (e.userPseudoId = v))))).flatten).filter
            (fun ce => decide (ce.event.userPseudoId = u')) = [] := by
        apply List.filter_eq_nil_iff.mpr
        intro ce hce
        rw [List.mem_flatten] at hce
        obtain ⟨l', hl', hcel⟩ := hce
        rw [List.mem_map] at hl'
        obtain ⟨v, hv, rfl⟩ := hl'
        have hcev : ce.event.userPseudoId = v := classify_user_journey_user cfg evs v ce hcel
        have hvne : v ≠ u' := fun hh => (List.nodup_cons.mp hnd).1 (hh ▸ hv)
        simp [hcev, hvne]
      rw [hself, hrest, List.append_nil]
      exact classify_user_journey_pairwise cfg _
    · have hfirst :
          (classify_user_journey cfg
            (evs.filter (fun e => decide (e.userPseudoId = u')))).filter
            (fun ce => decide (ce.event.userPseudoId = u)) = [] := by
        apply List.filter_eq_nil_iff.mpr
        intro ce hce
        have hcev := classify_user_journey_user cfg evs u' ce hce
        simp [hcev, hu]
      rw [hfirst, List.nil_append]
      exact ih (List.nodup_cons.mp hnd).2

theorem flatten_grouped_by_user (cfg : Config) (evs : List Event) :
    ∀ (users : List String), users.Nodup → ∀ u : String,
      ∃ pre mid post,
        ((users.map (fun u' =>
          classify_user_journey cfg
            (evs.filter (fun e => decide (e.userPseudoId = u'))))).flatten)
          = pre ++ mid ++ post
        ∧ (∀ ce ∈ mid, ce.event.userPseudoId = u)
        ∧ (∀ ce ∈ pre, ce.event.userPseudoId ≠ u)
        ∧ (∀ ce ∈ post, ce.event.userPseudoId ≠ u) := by
  intro users
  induction users with
  | nil =>
    intro _ u
    exact ⟨[], [], [], by simp, by simp, by simp, by simp⟩
  | cons u' rest ih =>
    intro hnd u
    by_cases hu : u' = u
    · subst hu
      refine ⟨[],
        classify_user_journey cfg (evs.filter (fun e => decide (e.userPseudoId = u'))),
        ((rest.map (fun v =>
          classify_user_journey cfg
            (evs.filter (fun e => decide (e.userPseudoId = v))))).flatten),
        by simp, ?_, by simp, ?_⟩
      · exact classify_user_journey_user cfg evs u'
      · intro ce hce
        rw [List.mem_flatten] at hce
        obtain ⟨l', hl', hcel⟩ := hce
        rw [List.mem_map] at hl'
        obtain ⟨v, hv, rfl⟩ := hl'
        have hcev := classify_user_journey_user cfg evs v ce hcel
        intro hceu
        have hvu : v = u' := by rw [← hcev, hceu]
        exact (List.nodup_cons.mp hnd).1 (hvu ▸ hv)
    · obtain ⟨pre', mid', post', heq, hmid, hpre, hpost⟩ :=
        ih (List.nodup_cons.mp hnd).2 u
      refine ⟨classify_user_journey cfg
          (evs.filter (fun e => decide (e.userPseudoId = u'))) ++ pre',
        mid', post', ?_, hmid, ?_, hpost⟩
      · simp [List.flatten_cons, heq, List.append_assoc]
      · intro ce hce
        rw [List.mem_append] at hce
        rcases hce with hce | hce
        · have hcev := classify_user_journey_user cfg evs u' ce hce
          rw [hcev]
          exact hu
        · exact hpre ce hce

theorem mem_user_ids {evs : List Event} {e : Event} (he : e ∈ evs) :
    e.userPseudoId ∈ user_ids evs := by
  unfold user_ids sort_strings
  rw [List.mem_insertionSort]
  exact List.mem_dedup.mpr (List.mem_map_of_mem _ he)

theorem user_ids_nodup (evs : List Event) : (user_ids evs).Nodup := by
  unfold user_ids sort_strings
  exact ((List.perm_insertionSort _ _).nodup_iff).mpr (List.nodup_dedup _)

/-- C8: the pipeline output is a permutation of the input at the level of
underlying events — one classified event per input event, with every
original field unchanged and only the page-category (and stage/confidence)
annotations added — the output is grouped by user (each user's classified
events form one contiguous block, with no other user's events interleaved),
and within each user the output is ordered by timestamp ascending. -/
theorem c8_frame_preservation (cfg : Config) (evs : List Event) :
    ((classify_user_events cfg evs).map (fun ce => ce.event)).Perm evs
    ∧ (∀ ce, ce ∈ classify_user_events cfg evs →
        ce.page_category = get_page_category cfg ce.event.pagePath)
    ∧ (∀ u : String,
        ((classify_user_events cfg evs).filter
          (fun ce => decide (ce.event.userPseudoId = u))).Pairwise
          (fun x y => x.event.eventTimestamp ≤ y.event.eventTimestamp))
    ∧ (∀ u : String,
        ∃ pre mid post,
          classify_user_events cfg evs = pre ++ mid ++ post
          ∧ (∀ ce ∈ mid, ce.event.userPseudoId = u)
          ∧ (∀ ce ∈ pre, ce.event.userPseudoId ≠ u)
          ∧ (∀ ce ∈ post, ce.event.userPseudoId ≠ u)) := by
  refine ⟨?_, ?_, ?_, ?_⟩
  · unfold classify_user_events
    split_ifs with hemp
    · have : evs = [] := by
        cases evs with
        | nil => rfl
        | cons a t => simp at hemp
      subst this
      simp
    · exact classify_flatten_perm cfg (user_ids evs) evs (user_ids_nodup evs)
        (fun e he => mem_user_ids he)
  · intro ce h
    obtain ⟨u, e, he, rfl⟩ := mem_classify_user_events h
    rfl
  · intro u
    unfold classify_user_events
    split_ifs with hemp
    · simp
    · exact flatten_filter_user cfg evs u (user_ids evs) (user_ids_nodup evs)
  · intro u
    unfold classify_user_events
    split_ifs with hemp
    · exact ⟨[], [], [], by simp, by simp, by simp, by simp⟩
    · exact flatten_grouped_by_user cfg evs (user_ids evs) (user_ids_nodup evs) u

/-- Witness for C8 at a concrete one-user relation with out-of-order
timestamps. -/
theorem c8_frame_preservation_witness :
    ((classify_user_events default_config c8_events).map (fun ce => ce.event)).Perm c8_events
    ∧ c8_ce.page_category = get_page_category default_config c8_ce.event.pagePath
    ∧ ((classify_user_events default_config c8_events).filter
        (fun ce => decide (ce.event.userPseudoId = "A"))).Pairwise
        (fun x y => x.event.eventTimestamp ≤ y.event.eventTimestamp)
    ∧ (∃ pre mid post,
        classify_user_events default_config c8_events = pre ++ mid ++ post
        ∧ (∀ ce ∈ mid, ce.event.userPseudoId = "A")
        ∧ (∀ ce ∈ pre, ce.event.userPseudoId ≠ "A")
        ∧ (∀ ce ∈ post, ce.event.userPseudoId ≠ "A")) :=
  ⟨(c8_frame_preservation default_config c8_events).1,
   (c8_frame_preservation default_config c8_events).2.1 c8_ce (by decide!),
   (c8_frame_preservation default_config c8_events).2.2.1 "A",
   (c8_frame_preservation default_config c8_events).2.2.2 "A"⟩

end GAReport
